import Mathlib

/-!
Verification of the workflow-orchestration behaviour of the chapter08-A2A
scripts (ReAct loop, fan-out/join coordinator, aggregator, travel-planning
graph).  Python functions are shallowly embedded as executable Lean
definitions; a raised Python exception is modelled as the `Except.error`
(or, where noted, `Option.none`) branch of the corresponding definition.
-/

instance {ε α : Type} [DecidableEq ε] [DecidableEq α] : DecidableEq (Except ε α) :=
  fun a b =>
    match a, b with
    | Except.ok x, Except.ok y =>
      if h : x = y then isTrue (by rw [h]) else isFalse (by intro hh; injection hh; contradiction)
    | Except.error x, Except.error y =>
      if h : x = y then isTrue (by rw [h]) else isFalse (by intro hh; injection hh; contradiction)
    | Except.ok _, Except.error _ => isFalse (by intro h; cases h)
    | Except.error _, Except.ok _ => isFalse (by intro h; cases h)

namespace StrOps

/-- Is `needle` a prefix of `hay` (as char lists)? -/
def isPrefixL (needle hay : List Char) : Bool :=
  match needle, hay with
  | [], _ => true
  | _ :: _, [] => false
  | a :: as, b :: bs => a == b && isPrefixL as bs

/-- Does `hay` contain `needle` as a contiguous sublist?  Embeds Python's
`needle in hay` substring test. -/
def containsL (needle : List Char) : List Char → Bool
  | [] => isPrefixL needle []
  | c :: t => isPrefixL needle (c :: t) || containsL needle t

/-- Python `needle in hay` on strings. -/
def strContains (hay needle : String) : Bool :=
  containsL needle.data hay.data

/-- First occurrence of `sep` in the list: returns the part before it and the
part after it. -/
def findSplit (sep : List Char) : List Char → Option (List Char × List Char)
  | [] => if isPrefixL sep [] then some ([], []) else none
  | c :: t =>
    if isPrefixL sep (c :: t) then some ([], (c :: t).drop sep.length)
    else
      match findSplit sep t with
      | some (b, a) => some (c :: b, a)
      | none => none

/-- Fuelled worker for `pySplit`. -/
def splitOnF (sep : List Char) : Nat → List Char → List (List Char)
  | 0, s => [s]
  | f + 1, s =>
    match findSplit sep s with
    | none => [s]
    | some (b, a) => b :: splitOnF sep f a

/-- Python `s.split(sep)` for a non-empty separator. -/
def pySplit (s sep : String) : List String :=
  (splitOnF sep.data (s.data.length + 1) s.data).map (fun l => String.mk l)

/-- Python `s.strip()`: drop leading and trailing whitespace. -/
def pyStrip (s : String) : String :=
  String.mk (((s.data.dropWhile Char.isWhitespace).reverse.dropWhile Char.isWhitespace).reverse)

end StrOps

namespace PyEval

/-!
Model of Python `eval` restricted to the arithmetic fragment the calculator
tools are fed: integer literals, unary `+`/`-`, binary `+`, `-`, `*`, the
power operator `**` (right associative, base binds tighter than unary minus)
and parentheses.  Inputs outside this fragment, and syntactically malformed
inputs inside it, evaluate to `Except.error`, which models the exception
`eval` raises.
-/

inductive Tok where
  | int (n : Int)
  | plus
  | minus
  | star
  | starstar
  | lparen
  | rparen
deriving DecidableEq

/-- Lex a run of digits, returning its value and the remaining characters. -/
def lexNum : List Char → Nat → (Nat × List Char)
  | [], acc => (acc, [])
  | c :: t, acc =>
    if c.isDigit then lexNum t (acc * 10 + (c.toNat - 48)) else (acc, c :: t)

/-- Fuelled tokenizer; any character outside the fragment is a syntax error. -/
def tokenizeF : Nat → List Char → Except String (List Tok)
  | 0, [] => Except.ok []
  | 0, _ :: _ => Except.error "invalid syntax"
  | _ + 1, [] => Except.ok []
  | f + 1, c :: t =>
    if c.isWhitespace then tokenizeF f t
    else if c.isDigit then
      let p := lexNum (c :: t) 0
      (tokenizeF f p.2).map (fun ts => Tok.int (Int.ofNat p.1) :: ts)
    else if c == '+' then (tokenizeF f t).map (fun ts => Tok.plus :: ts)
    else if c == '-' then (tokenizeF f t).map (fun ts => Tok.minus :: ts)
    else if c == '*' then
      match t with
      | '*' :: t2 => (tokenizeF f t2).map (fun ts => Tok.starstar :: ts)
      | _ => (tokenizeF f t).map (fun ts => Tok.star :: ts)
    else if c == '(' then (tokenizeF f t).map (fun ts => Tok.lparen :: ts)
    else if c == ')' then (tokenizeF f t).map (fun ts => Tok.rparen :: ts)
    else Except.error "invalid syntax"

/-- Integer power; a negative exponent leaves the integer fragment (Python
would produce a float) and is reported as an error. -/
def ipow (b e : Int) : Except String Int :=
  if e < 0 then Except.error "negative exponent" else Except.ok (b ^ e.toNat)

/-- Atom: an integer literal or a parenthesised expression (the expression
parser is passed in to tie the recursive knot). -/
def parseAtom (pE : List Tok → Except String (Int × List Tok)) :
    List Tok → Except String (Int × List Tok)
  | Tok.int n :: ts => Except.ok (n, ts)
  | Tok.lparen :: ts =>
    match pE ts with
    | Except.ok (v, Tok.rparen :: ts2) => Except.ok (v, ts2)
    | Except.ok _ => Except.error "invalid syntax"
    | Except.error m => Except.error m
  | _ => Except.error "invalid syntax"

/-- Unary `+`/`-` chains over a power expression; `**` is right associative
and its exponent may itself be signed, matching Python precedence. -/
def parseUnaryF (pE : List Tok → Except String (Int × List Tok)) :
    Nat → List Tok → Except String (Int × List Tok)
  | 0, _ => Except.error "invalid syntax"
  | f + 1, ts =>
    match ts with
    | Tok.minus :: ts2 =>
      match parseUnaryF pE f ts2 with
      | Except.ok (v, r) => Except.ok (-v, r)
      | Except.error m => Except.error m
    | Tok.plus :: ts2 => parseUnaryF pE f ts2
    | _ =>
      match parseAtom pE ts with
      | Except.ok (b, Tok.starstar :: ts2) =>
        match parseUnaryF pE f ts2 with
        | Except.ok (e, r) =>
          match ipow b e with
          | Except.ok v => Except.ok (v, r)
          | Except.error m => Except.error m
        | Except.error m => Except.error m
      | Except.ok (b, r) => Except.ok (b, r)
      | Except.error m => Except.error m

/-- Left-associative `*` chain continuation. -/
def parseTermLoop (pE : List Tok → Except String (Int × List Tok)) :
    Nat → Int → List Tok → Except String (Int × List Tok)
  | 0, _, _ => Except.error "invalid syntax"
  | f + 1, acc, ts =>
    match ts with
    | Tok.star :: ts2 =>
      match parseUnaryF pE (ts2.length + 1) ts2 with
      | Except.ok (v, r) => parseTermLoop pE f (acc * v) r
      | Except.error m => Except.error m
    | _ => Except.ok (acc, ts)

/-- A multiplicative term. -/
def parseTermF (pE : List Tok → Except String (Int × List Tok))
    (ts : List Tok) : Except String (Int × List Tok) :=
  match parseUnaryF pE (ts.length + 1) ts with
  | Except.ok (v, r) => parseTermLoop pE (r.length + 1) v r
  | Except.error m => Except.error m

/-- Left-associative `+`/`-` chain continuation. -/
def parseAddLoop (pE : List Tok → Except String (Int × List Tok)) :
    Nat → Int → List Tok → Except String (Int × List Tok)
  | 0, _, _ => Except.error "invalid syntax"
  | f + 1, acc, ts =>
    match ts with
    | Tok.plus :: ts2 =>
      match parseTermF pE ts2 with
      | Except.ok (v, r) => parseAddLoop pE f (acc + v) r
      | Except.error m => Except.error m
    | Tok.minus :: ts2 =>
      match parseTermF pE ts2 with
      | Except.ok (v, r) => parseAddLoop pE f (acc - v) r
      | Except.error m => Except.error m
    | _ => Except.ok (acc, ts)

/-- Full expression parser; the fuel bounds parenthesis nesting. -/
def parseExprF : Nat → List Tok → Except String (Int × List Tok)
  | 0, _ => Except.error "invalid syntax"
  | f + 1, ts =>
    match parseTermF (parseExprF f) ts with
    | Except.ok (v, r) => parseAddLoop (parseExprF f) (r.length + 1) v r
    | Except.error m => Except.error m

/-- Python `eval` on the arithmetic fragment; `Except.error` models the
exception raised on malformed input. -/
def pyEval (s : String) : Except String Int :=
  match tokenizeF (s.data.length + 1) s.data with
  | Except.error m => Except.error m
  | Except.ok toks =>
    match parseExprF (toks.length + 1) toks with
    | Except.ok (v, []) => Except.ok v
    | Except.ok _ => Except.error "invalid syntax"
    | Except.error m => Except.error m

end PyEval

namespace ReactAgent

/-!
Embedding of `chapter08-A2A/ReactAgent.py`: the ReAct state graph with nodes
`agent` and `tools`, the router `should_continue`, and the LangGraph driver
(entry `agent`; conditional edges `continue ↦ tools`, `end ↦ END`; fixed
edge `tools → agent`).  The reasoning capability is scripted: the reply of
the k-th `agent` invocation is `replies[k]` (indexed by the iteration
counter, which counts agent invocations when a run starts at 0).
-/

structure Message where
  role : String
  content : String
deriving DecidableEq

/-- `ReActState`: `messages` carries `Annotated[list, operator.add]`
(append-merge), `iterations` is a plain (overwrite-merge) field. -/
structure ReActState where
  messages : List Message
  iterations : Nat
deriving DecidableEq

/-- A partial state update returned by one node: the message entries to
append and, optionally, a new value for the iteration counter. -/
structure ReActPatch where
  messages : List Message
  iterations : Option Nat
deriving DecidableEq

/-- LangGraph channel merge for `ReActState`: `operator.add` on `messages`
(old entries first), last-value overwrite on `iterations`; both components
are updated in the one merge step. -/
def applyPatch (s : ReActState) (p : ReActPatch) : ReActState :=
  { messages := s.messages ++ p.messages,
    iterations := p.iterations.getD s.iterations }

/-- `state['messages'][-1]['content']` (runs always have a non-empty log;
the empty-log default is never exercised). -/
def lastContent (s : ReActState) : String :=
  ((s.messages.getLast?).map Message.content).getD ""

/-- `search_tool` (line 14). -/
def search_tool (query : String) : String :=
  "搜索结果: " ++ query ++ " 的相关信息..."

/-- `calculator_tool` (line 18): bare `eval` with no exception handler, so a
malformed expression propagates as `Except.error`. -/
def calculator_tool (expression : String) : Except String Int :=
  PyEval.pyEval expression

/-- `last_message.split("Action Input:")[-1].strip()` (lines 72, 75). -/
def extractActionInput (s : String) : String :=
  StrOps.pyStrip ((StrOps.pySplit s "Action Input:").getLastD s)

/-- `agent_node` (lines 40-63): appends one assistant message (the scripted
reply) and overwrites `iterations` with its successor. -/
def agent_node (reply : String) (s : ReActState) : ReActPatch :=
  { messages := [{ role := "assistant", content := reply }],
    iterations := some (s.iterations + 1) }

/-- `tool_node` (lines 66-82).  `Except.error` models the uncaught exception
that `calculator_tool`'s bare `eval` can raise; the other branches never
raise. -/
def tool_node (s : ReActState) : Except String ReActPatch :=
  let last := lastContent s
  if StrOps.strContains last "Action: Search" then
    Except.ok ⟨[⟨"tool", "Observation: " ++ search_tool (extractActionInput last)⟩], none⟩
  else if StrOps.strContains last "Action: Calculator" then
    match calculator_tool (extractActionInput last) with
    | Except.ok v => Except.ok ⟨[⟨"tool", "Observation: " ++ toString v⟩], none⟩
    | Except.error m => Except.error m
  else
    Except.ok ⟨[⟨"tool", "Observation: 无法识别的工具"⟩], none⟩

/-- `should_continue` (lines 86-94), the conditional-edge router. -/
def should_continue (s : ReActState) : String :=
  if StrOps.strContains (lastContent s) "Final Answer" then "end"
  else if s.iterations ≥ 5 then "end"
  else "continue"

/-- Outcome of driving the compiled graph: final state, number of `agent`
(Thinking) invocations, number of `tools` (Acting) invocations, and whether
an uncaught tool exception aborted the run. -/
structure RunResult where
  final : ReActState
  thinking : Nat
  acting : Nat
  crashed : Bool
deriving DecidableEq

/-- The scripted reasoning capability: reply for the current `agent`
invocation. -/
def scriptReply (replies : List String) (s : ReActState) : String :=
  replies.getD s.iterations ""

/-- One `agent` node invocation followed by the LangGraph merge. -/
def agentStep (replies : List String) (s : ReActState) : ReActState :=
  applyPatch s (agent_node (scriptReply replies s) s)

/-- LangGraph execution of the compiled graph from node `agent`: run
`agent_node`, merge, route via `should_continue` through the map
`{continue ↦ tools, end ↦ END}`; `tools` merges its patch and follows the
fixed edge back to `agent` (line 114).  Fuel bounds the recursion; any run
from `iterations = 0` finishes within fuel 6. -/
def runFrom (replies : List String) : Nat → ReActState → RunResult
  | 0, s => ⟨s, 0, 0, false⟩
  | f + 1, s =>
    let s1 := agentStep replies s
    if should_continue s1 == "end" then ⟨s1, 1, 0, false⟩
    else
      match tool_node s1 with
      | Except.error _ => ⟨s1, 1, 1, true⟩
      | Except.ok p =>
        let r := runFrom replies f (applyPatch s1 p)
        ⟨r.final, r.thinking + 1, r.acting + 1, r.crashed⟩

/-- The initial state of the run in lines 119-122 (one user message,
`iterations = 0`); the question text is immaterial to routing. -/
def initState : ReActState :=
  ⟨[{ role := "user", content := "搜索 2025.10.31的新闻并计算 2**2+10" }], 0⟩

end ReactAgent

namespace MultiAgent

/-!
Embedding of `chapter08-A2A/multi_agent_async.py`: the per-task result
record, the per-agent exception-to-record conversion (`*.ainvoke`), the
aggregator (`SummarizerAgent.ainvoke`), and the fan-out join of
`ResearchTeam.research` (lines 388-411).  `asyncio.gather` and the
LLM/executor calls are external collaborators: the executor outcome of a
task and the completion schedule are parameters, and `gather` is modelled
from its documented semantics — completions arrive in an arbitrary order
and are placed into the slot of the task that produced them, one slot per
submitted task.
-/

/-- The result dictionary every agent task produces (agent, task, result,
duration, success); timestamps are external wall-clock data and are not
modelled. -/
structure TaskResult where
  agent : String
  task : String
  result : String
  duration : Nat
  success : Bool
deriving DecidableEq

/-- `ResearchAgent.ainvoke` / `AnalystAgent.ainvoke` (lines 166-202,
240-275): the executor outcome (or raised exception) becomes a success or
failure record; `dur` is the measured wall-clock duration. -/
def ResearchAgent_ainvoke (name task : String) (dur : Nat)
    (executorOutcome : Except String String) : TaskResult :=
  match executorOutcome with
  | Except.ok out => { agent := name, task := task, result := out, duration := dur, success := true }
  | Except.error e => { agent := name, task := task, result := "任务执行失败: " ++ e, duration := dur, success := false }

/-- The `AllFailed` sentinel record returned when no prior task succeeded
(lines 293-301). -/
def allFailedResult (name : String) : TaskResult :=
  { agent := name, task := "整合所有结果",
    result := "❌ 所有前置任务都失败了，无法生成报告", duration := 0, success := false }

/-- `combined_info` (lines 303-306); the float formatting of the duration is
rendered with `toString`. -/
def buildCombinedInfo (successful : List TaskResult) : String :=
  String.intercalate "\n\n" (successful.map fun r =>
    "【" ++ r.agent ++ "】\n任务: " ++ r.task ++ "\n结果:\n" ++ r.result ++
    "\n耗时: " ++ toString r.duration ++ "秒")

/-- The synthesis prompt (lines 308-328); the static rubric text is
abbreviated, which affects no claim. -/
def summaryPrompt (combined : String) : String :=
  "请将以下多个智能体的工作结果整合成一份专业、结构化的研究报告：\n\n" ++ combined ++
  "\n\n报告要求：执行摘要、关键发现、详细分析、结论和建议。"

/-- `SummarizerAgent.ainvoke` (lines 285-360).  `llm` is the reasoning
capability (it may fail); the second component counts how many times it was
invoked. -/
def SummarizerAgent_ainvoke (name : String) (llm : String → Except String String)
    (dur : Nat) (results : List TaskResult) : TaskResult × Nat :=
  let successful := results.filter (fun r => r.success)
  if successful.isEmpty then
    (allFailedResult name, 0)
  else
    match llm (summaryPrompt (buildCombinedInfo successful)) with
    | Except.ok content =>
      ({ agent := name, task := "整合所有结果", result := content,
         duration := dur, success := true }, 1)
    | Except.error e =>
      ({ agent := name, task := "整合所有结果", result := "整合失败: " ++ e,
         duration := dur, success := false }, 1)

/-- `asyncio.gather` slot model: each index `j` of `order` (the completion
schedule) deposits outcome `j` into slot `j`; the returned sequence reads the
slots in submission order. -/
def gatherSlots {α : Type} (outcomes : List α) (order : List Nat) : List (Option α) :=
  (List.range outcomes.length).map fun i =>
    List.lookup i (order.filterMap fun j => (outcomes[j]?).map fun a => (j, a))

/-- `asyncio.gather(*tasks, return_exceptions=True)`: every submitted task
yields exactly one entry; the placeholder default is unreachable for any
schedule that completes each task (see `gatherJoin_eq`). -/
def gatherJoin (outcomes : List (Except String TaskResult)) (order : List Nat) :
    List (Except String TaskResult) :=
  (gatherSlots outcomes order).map fun o => o.getD (Except.error "lost")

/-- The failure record built in the exception branch of the join loop
(lines 402-409). -/
def failRecord (i : Nat) (m : String) : TaskResult :=
  { agent := "Agent-" ++ toString (i + 1), task := "搜索任务",
    result := "异常: " ++ m, duration := 0, success := false }

/-- The body of the join loop for one indexed entry. -/
def convertOutcome (i : Nat) (o : Except String TaskResult) : TaskResult :=
  match o with
  | Except.ok r => r
  | Except.error m => failRecord i m

/-- The `processed_results` loop of `ResearchTeam.research` (lines 398-411):
exceptions become failure records, results pass through, in order. -/
def processResults (search_results : List (Except String TaskResult)) : List TaskResult :=
  search_results.enum.map fun p => convertOutcome p.1 p.2

/-- Stage 1 + join of `ResearchTeam.research`: gather the concurrently
completing tasks, then convert. -/
def research (outcomes : List (Except String TaskResult)) (order : List Nat) :
    List TaskResult :=
  processResults (gatherJoin outcomes order)

end MultiAgent

namespace Travel

/-!
Embedding of the routing layer of `chapter08-A2A/mcp_travel_langgraph.py`:
`TravelPlanningGraph.route_next` (lines 314-332), the `current_step` value
each node handler writes into the state (lines 93, 110, 141, 162, 186, 218,
242, 297, 310), and the per-node conditional-edge maps registered in
`build_and_run_workflow` (lines 361-439).
-/

/-- The `step_map` dictionary inside `route_next` (lines 316-327). -/
def step_map : List (String × String) :=
  [("collect", "weather"), ("weather_check", "attractions"),
   ("find_attractions", "restaurants"), ("find_restaurants", "hotels"),
   ("find_hotels", "schedule"), ("create_schedule", "budget"),
   ("calculate_budget", "generate"), ("generate_plan", "review"),
   ("review", "end"), ("end", "end")]

/-- `route_next` (lines 314-332): reads `current_step` (defaulting to
"collect"), maps it through `step_map` (defaulting to "end"). -/
def route_next (current_step : Option String) : String :=
  let current := current_step.getD "collect"
  let next_step := (step_map.lookup current).getD "end"
  if next_step == "end" then "end" else next_step

/-- The `current_step` value each node handler merges into the state. -/
def handlerStep : List (String × String) :=
  [("collect", "weather_check"), ("weather", "find_attractions"),
   ("attractions", "find_restaurants"), ("restaurants", "find_hotels"),
   ("hotels", "create_schedule"), ("schedule", "calculate_budget"),
   ("budget", "generate_plan"), ("generate", "review"), ("review", "end")]

/-- The labels of each node's conditional-edge map ("end" maps to the END
sentinel, every other label to the node of the same name). -/
def edgeLabels : List (String × List String) :=
  [("collect", ["weather", "end"]), ("weather", ["attractions", "end"]),
   ("attractions", ["restaurants", "end"]), ("restaurants", ["hotels", "end"]),
   ("hotels", ["schedule", "end"]), ("schedule", ["budget", "end"]),
   ("budget", ["generate", "end"]), ("generate", ["review", "end"]),
   ("review", ["end"])]

inductive EngineOutcome where
  | finished (current_step : Option String)
  | unroutable (node : String) (label : String)
  | outOfFuel
deriving DecidableEq

/-- Modelled from the spec: the conditional-edge resolution of the graph
engine (supplied by the langgraph dependency, not under src).  After a node
runs and its state update is merged, the router is consulted on the merged
state and its label resolved through that node's edge map; a label with no
entry is a defined error ("an unmapped label is a defined error, not
undefined behavior"), never a silent continuation. -/
def runEngine : Nat → String → Option String → EngineOutcome
  | 0, _, _ => EngineOutcome.outOfFuel
  | f + 1, node, cur =>
    let cur2 : Option String :=
      match handlerStep.lookup node with
      | some v => some v
      | none => cur
    let label := route_next cur2
    match edgeLabels.lookup node with
    | none => EngineOutcome.unroutable node label
    | some labels =>
      if label ∈ labels then
        if label == "end" then EngineOutcome.finished cur2
        else runEngine f label cur2
      else EngineOutcome.unroutable node label

end Travel

namespace Calculators

/-- `calculator_tool` of `ReactAgent.py` (lines 18-19): returns `eval`'s
value directly, with no exception handler, so a malformed expression
propagates as `Except.error` (an uncaught exception). -/
def calculator_tool_react (expression : String) : Except String Int :=
  PyEval.pyEval expression

/-- `calculator_tool` of `ReactAgentV2.py` (lines 36-49): evaluation is
wrapped in try/except and the result — success or failure — is always a
string. -/
def calculator_tool_v2 (expression : String) : String :=
  match PyEval.pyEval expression with
  | Except.ok v => "📊 计算结果: " ++ expression ++ " = " ++ toString v
  | Except.error m => "❌ 计算错误: " ++ m

/-- `calculator` of `googleSearch_simple.py` (lines 41-56): same try/except
shape with its own wording. -/
def calculator_gs (expression : String) : String :=
  match PyEval.pyEval expression with
  | Except.ok v => "计算结果: " ++ toString v
  | Except.error m => "计算错误: " ++ m

end Calculators

/-- A generic initial state: one user message, iteration counter 0. -/
def demoStart : ReactAgent.ReActState := ⟨[⟨"user", "问题"⟩], 0⟩

/-- Five scripted replies, none containing the final-answer marker. -/
def repliesNoFinal : List String :=
  ["Thought: 第一步", "Thought: 第二步", "Thought: 第三步", "Thought: 第四步", "Thought: 第五步"]

/-- Four marker-free replies followed by a genuine final answer. -/
def repliesGenuine : List String :=
  ["Thought: 第一步", "Thought: 第二步", "Thought: 第三步", "Thought: 第四步", "Final Answer: 完成"]

/-- The scripted run of §8 Scenario B: first reply calls the Calculator on
`2**2+10`, second reply gives a final answer. -/
def repliesScenarioB : List String :=
  ["Thought: 需要计算\nAction: Calculator\nAction Input: 2**2+10",
   "Final Answer: 14"]

/-- A state whose last message carries both a "Final Answer" marker and an
"Action:" tool directive, with the iteration counter still at 0. -/
def stateC10 : ReactAgent.ReActState :=
  ⟨[⟨"assistant", "Action: Calculator\nAction Input: 1+1\nFinal Answer: 2"⟩], 0⟩

/-- A reply that requests a tool not present in the registry. -/
def repliesUnknownTool : List String :=
  ["Thought: 试试\nAction: WebSearch\nAction Input: 今天的天气"]

/-- A concrete previously merged state and an incoming patch. -/
def stateDemoC8 : ReactAgent.ReActState := ⟨[⟨"user", "问"⟩, ⟨"assistant", "答"⟩], 2⟩

/-- A concrete patch carrying one message and a counter overwrite. -/
def patchDemoC8 : ReactAgent.ReActPatch := ⟨[⟨"tool", "Observation: 14"⟩], some 3⟩

/-- Three concrete task outcomes: two successes around one raised error. -/
def outcomesDemo : List (Except String MultiAgent.TaskResult) :=
  [Except.ok ⟨"搜索专家-1", "查最新信息", "找到了A", 3, true⟩,
   Except.error "TimeoutError",
   Except.ok ⟨"数据分析师", "分析趋势", "趋势为B", 5, true⟩]

namespace ReactAgent

lemma lastContent_apply_single (s : ReActState) (m : Message) (it : Option Nat) :
    lastContent (applyPatch s ⟨[m], it⟩) = m.content := by
  simp [lastContent, applyPatch]

lemma agentStep_iterations (replies : List String) (s : ReActState) :
    (agentStep replies s).iterations = s.iterations + 1 := by
  simp [agentStep, applyPatch, agent_node]

lemma agentStep_messages (replies : List String) (s : ReActState) :
    (agentStep replies s).messages =
      s.messages ++ [⟨"assistant", scriptReply replies s⟩] := by
  simp [agentStep, applyPatch, agent_node]

lemma agentStep_lastContent (replies : List String) (s : ReActState) :
    lastContent (agentStep replies s) = scriptReply replies s :=
  lastContent_apply_single s ⟨"assistant", scriptReply replies s⟩ _

lemma tool_node_iterations (s : ReActState) (p : ReActPatch)
    (h : tool_node s = Except.ok p) : p.iterations = none := by
  simp only [tool_node] at h
  split_ifs at h with h1 h2
  · injection h with h; rw [← h]
  · revert h
    split
    · intro h; injection h with h; rw [← h]
    · intro h; cases h
  · injection h with h; rw [← h]

lemma should_continue_of_marker (s : ReActState)
    (h : StrOps.strContains (lastContent s) "Final Answer" = true) :
    should_continue s = "end" := by
  simp [should_continue, h]

lemma should_continue_of_big (s : ReActState)
    (h : 5 ≤ s.iterations) : should_continue s = "end" := by
  unfold should_continue
  split_ifs <;> rfl

lemma not_end_facts (s : ReActState) (h : should_continue s ≠ "end") :
    StrOps.strContains (lastContent s) "Final Answer" = false ∧ s.iterations < 5 := by
  by_cases h1 : StrOps.strContains (lastContent s) "Final Answer" = true
  · exact absurd (should_continue_of_marker s h1) h
  · by_cases h2 : 5 ≤ s.iterations
    · exact absurd (should_continue_of_big s h2) h
    · exact ⟨by simpa using h1, by omega⟩

lemma runFrom_succ_end (replies : List String) (f : Nat) (s : ReActState)
    (h : should_continue (agentStep replies s) = "end") :
    runFrom replies (f + 1) s = ⟨agentStep replies s, 1, 0, false⟩ := by
  simp [runFrom, h]

lemma runFrom_succ_crash (replies : List String) (f : Nat) (s : ReActState) (m : String)
    (h : should_continue (agentStep replies s) ≠ "end")
    (htool : tool_node (agentStep replies s) = Except.error m) :
    runFrom replies (f + 1) s = ⟨agentStep replies s, 1, 1, true⟩ := by
  simp [runFrom, h, htool]

lemma runFrom_succ_ok (replies : List String) (f : Nat) (s : ReActState) (p : ReActPatch)
    (h : should_continue (agentStep replies s) ≠ "end")
    (htool : tool_node (agentStep replies s) = Except.ok p) :
    runFrom replies (f + 1) s =
      ⟨(runFrom replies f (applyPatch (agentStep replies s) p)).final,
       (runFrom replies f (applyPatch (agentStep replies s) p)).thinking + 1,
       (runFrom replies f (applyPatch (agentStep replies s) p)).acting + 1,
       (runFrom replies f (applyPatch (agentStep replies s) p)).crashed⟩ := by
  simp [runFrom, h, htool]

/-- For any script, any fuel and any start state, the loop performs at most
`max (5 - iterations) 1` Thinking steps. -/
lemma runFrom_thinking_le (replies : List String) :
    ∀ (f : Nat) (s : ReActState),
      (runFrom replies f s).thinking ≤ max (5 - s.iterations) 1 := by
  intro f
  induction f with
  | zero => intro s; simp [runFrom]
  | succ f ih =>
    intro s
    by_cases hend : should_continue (agentStep replies s) = "end"
    · rw [runFrom_succ_end replies f s hend]
      exact Nat.le_max_right _ _
    · have hlt := (not_end_facts _ hend).2
      rw [agentStep_iterations] at hlt
      cases htool : tool_node (agentStep replies s) with
      | error m =>
        rw [runFrom_succ_crash replies f s m hend htool]
        exact Nat.le_max_right _ _
      | ok p =>
        have hpit := tool_node_iterations _ _ htool
        rw [runFrom_succ_ok replies f s p hend htool]
        have hit2 : (applyPatch (agentStep replies s) p).iterations = s.iterations + 1 := by
          simp [applyPatch, hpit, agentStep_iterations]
        have h2 := ih (applyPatch (agentStep replies s) p)
        rw [hit2] at h2
        rw [Nat.max_eq_left (by omega : 1 ≤ 5 - (s.iterations + 1))] at h2
        refine le_trans ?_ (Nat.le_max_left _ _)
        simp only
        omega

end ReactAgent

namespace ReactAgent

/-- If no scripted reply from the current iteration up to the cap carries the
final-answer marker and the run does not crash on a tool exception, the loop
does exactly `5 - iterations` further Thinking steps and stops at iteration 5
with the fifth assistant reply as the (verbatim) last message. -/
lemma runFrom_forced (replies : List String) :
    ∀ (f : Nat) (s : ReActState), s.iterations < 5 → 5 - s.iterations ≤ f →
      (∀ i, s.iterations ≤ i → i < 5 →
        StrOps.strContains (replies.getD i "") "Final Answer" = false) →
      (runFrom replies f s).crashed = false →
      (runFrom replies f s).thinking = 5 - s.iterations ∧
      (runFrom replies f s).final.iterations = 5 ∧
      (runFrom replies f s).final.messages.getLast? =
        some ⟨"assistant", replies.getD 4 ""⟩ := by
  intro f
  induction f with
  | zero => intro s h1 h2 _ _; omega
  | succ f ih =>
    intro s hk hf hm hc
    have hmarker : StrOps.strContains (scriptReply replies s) "Final Answer" = false := by
      simpa [scriptReply] using hm s.iterations (le_refl _) hk
    by_cases h4 : s.iterations = 4
    · have hend : should_continue (agentStep replies s) = "end" := by
        apply should_continue_of_big
        rw [agentStep_iterations]; omega
      rw [runFrom_succ_end replies f s hend]
      refine ⟨by simp [h4], ?_, ?_⟩
      · rw [agentStep_iterations]; omega
      · rw [agentStep_messages]
        simp [scriptReply, h4]
    · have hcont : should_continue (agentStep replies s) = "continue" := by
        simp [should_continue, agentStep_lastContent, hmarker, agentStep_iterations]
        omega
      have hne : should_continue (agentStep replies s) ≠ "end" := by
        rw [hcont]; decide
      cases htool : tool_node (agentStep replies s) with
      | error m =>
        exfalso
        rw [runFrom_succ_crash replies f s m hne htool] at hc
        simp at hc
      | ok p =>
        have hpit := tool_node_iterations _ _ htool
        have hit2 : (applyPatch (agentStep replies s) p).iterations = s.iterations + 1 := by
          simp [applyPatch, hpit, agentStep_iterations]
        rw [runFrom_succ_ok replies f s p hne htool] at hc ⊢
        simp only at hc ⊢
        have hm2 : ∀ i, (applyPatch (agentStep replies s) p).iterations ≤ i → i < 5 →
            StrOps.strContains (replies.getD i "") "Final Answer" = false := by
          intro i hi h5
          rw [hit2] at hi
          exact hm i (by omega) h5
        have hrec := ih (applyPatch (agentStep replies s) p)
          (by rw [hit2]; omega) (by rw [hit2]; omega) hm2 hc
        rw [hit2] at hrec
        exact ⟨by omega, hrec.2.1, hrec.2.2⟩

end ReactAgent

namespace MultiAgent

lemma lookup_completions {α : Type} (outcomes : List α) (i : Nat)
    (hi : i < outcomes.length) :
    ∀ (order : List Nat), i ∈ order →
      List.lookup i (order.filterMap fun j => (outcomes[j]?).map fun a => (j, a)) =
        outcomes[i]? := by
  intro order
  induction order with
  | nil => intro hmem; cases hmem
  | cons j rest ih =>
    intro hmem
    cases hj : outcomes[j]? with
    | none =>
      have hij : i ≠ j := by
        intro e
        subst e
        have h2 := List.getElem?_eq_getElem hi
        rw [hj] at h2
        cases h2
      have hmem2 : i ∈ rest := by
        cases List.mem_cons.mp hmem with
        | inl h => exact absurd h hij
        | inr h => exact h
      have hstep :
          List.filterMap (fun j => Option.map (fun a => (j, a)) outcomes[j]?) (j :: rest) =
            List.filterMap (fun j => Option.map (fun a => (j, a)) outcomes[j]?) rest := by
        apply List.filterMap_cons_none
        rw [hj]
        rfl
      rw [hstep]
      exact ih hmem2
    | some a =>
      have hstep :
          List.filterMap (fun j => Option.map (fun a => (j, a)) outcomes[j]?) (j :: rest) =
            (j, a) :: List.filterMap (fun j => Option.map (fun a => (j, a)) outcomes[j]?) rest := by
        apply List.filterMap_cons_some
        rw [hj]
        rfl
      rw [hstep]
      by_cases hij : i = j
      · subst hij
        simp [List.lookup, hj]
      · have hmem2 : i ∈ rest := by
          cases List.mem_cons.mp hmem with
          | inl h => exact absurd h hij
          | inr h => exact h
        have hbeq : (i == j) = false := by
          simpa using hij
        simp only [List.lookup, hbeq]
        exact ih hmem2

/-- For any completing schedule, the gathered slots are the submitted
outcomes in submission order. -/
lemma gatherSlots_eq {α : Type} (outcomes : List α) (order : List Nat)
    (h : ∀ i, i < outcomes.length → i ∈ order) :
    gatherSlots outcomes order = outcomes.map some := by
  apply List.ext_getElem?
  intro i
  by_cases hi : i < outcomes.length
  · rw [gatherSlots, List.getElem?_map, List.getElem?_map,
      List.getElem?_range (by simpa using hi)]
    simp [lookup_completions outcomes i hi order (h i hi), List.getElem?_eq_getElem hi]
  · rw [gatherSlots, List.getElem?_map, List.getElem?_map]
    have h1 : (List.range outcomes.length)[i]? = none := by
      rw [List.getElem?_eq_none]
      simpa using Nat.le_of_not_lt hi
    have h2 : outcomes[i]? = none := by
      rw [List.getElem?_eq_none]
      exact Nat.le_of_not_lt hi
    rw [h1, h2]
    rfl

lemma gatherJoin_eq (outcomes : List (Except String TaskResult)) (order : List Nat)
    (h : ∀ i, i < outcomes.length → i ∈ order) :
    gatherJoin outcomes order = outcomes := by
  rw [gatherJoin, gatherSlots_eq outcomes order h, List.map_map]
  have hcomp :
      ((fun o => Option.getD o (Except.error "lost")) ∘ some) =
        (id : Except String TaskResult → Except String TaskResult) := by
    funext a
    rfl
  rw [hcomp, List.map_id]

lemma processResults_getElem (l : List (Except String TaskResult)) (i : Nat) :
    (processResults l)[i]? = (l[i]?).map (convertOutcome i) := by
  rw [processResults, List.getElem?_map, List.getElem?_enum]
  cases h : l[i]? <;> rfl

lemma processResults_length (l : List (Except String TaskResult)) :
    (processResults l).length = l.length := by
  simp [processResults]

end MultiAgent

/-- C1 (the code violates it): from the program's own initial state
(`current_step = "collect"`, entry node `collect`), the first node sets
`current_step` to "weather_check", whereupon `route_next` returns
"attractions" — a label with no entry in `collect`'s conditional-edge map
`{weather, end}` — so the first transition already fails with an
unroutable-label error instead of reaching the `weather` node. -/
theorem C1_router_unmapped_label :
    Travel.handlerStep.lookup "collect" = some "weather_check" ∧
    Travel.route_next (some "weather_check") = "attractions" ∧
    ("attractions" ∈ (Travel.edgeLabels.lookup "collect").getD []) = False ∧
    Travel.runEngine 20 "collect" (some "collect") =
      Travel.EngineOutcome.unroutable "collect" "attractions" := by
  refine ⟨rfl, rfl, ?_, rfl⟩
  simp [Travel.edgeLabels]

/-- C2: for every ordered task list and every completing schedule, the
fan-out join returns exactly as many entries as tasks were submitted, the
entry at position `i` is the converted outcome of the task submitted at
position `i`, and the whole result is independent of the completion
order — it always equals the submission-order conversion. -/
theorem C2_fanout_order (outcomes : List (Except String MultiAgent.TaskResult))
    (order : List Nat) (h : ∀ i, i < outcomes.length → i ∈ order) :
    MultiAgent.research outcomes order = MultiAgent.processResults outcomes ∧
    (MultiAgent.research outcomes order).length = outcomes.length ∧
    ∀ i, (MultiAgent.research outcomes order)[i]? =
      (outcomes[i]?).map (MultiAgent.convertOutcome i) := by
  have heq : MultiAgent.research outcomes order = MultiAgent.processResults outcomes := by
    rw [MultiAgent.research, MultiAgent.gatherJoin_eq outcomes order h]
  refine ⟨heq, ?_, ?_⟩
  · rw [heq]
    exact MultiAgent.processResults_length outcomes
  · intro i
    rw [heq]
    exact MultiAgent.processResults_getElem outcomes i

theorem C2_witness :
    MultiAgent.research outcomesDemo [2, 0, 1] = MultiAgent.processResults outcomesDemo ∧
    (MultiAgent.research outcomesDemo [2, 0, 1]).length = outcomesDemo.length ∧
    (MultiAgent.research outcomesDemo [2, 0, 1])[0]? =
      (outcomesDemo[0]?).map (MultiAgent.convertOutcome 0) :=
  ⟨(C2_fanout_order outcomesDemo [2, 0, 1] (by decide)).1,
   (C2_fanout_order outcomesDemo [2, 0, 1] (by decide)).2.1,
   (C2_fanout_order outcomesDemo [2, 0, 1] (by decide)).2.2 0⟩

/-- C3 (amended): starting from `iterations = 0` the loop performs at most 5
Thinking steps for every script; when no reply up to the cap carries a
final-answer marker and no tool exception crashes the run, it performs
exactly 5 Thinking steps and stops with `iterations = 5` and the fifth
assistant reply preserved verbatim as the last message.  The returned state
carries only the message log and the counter: no `IterationLimitExceeded` /
forced-stop flag exists (cf. the counterexample theorem). -/
theorem C3_amended_iteration_cap :
    (∀ (replies : List String) (f : Nat) (msgs0 : List ReactAgent.Message),
       (ReactAgent.runFrom replies f ⟨msgs0, 0⟩).thinking ≤ 5) ∧
    (∀ (replies : List String) (f : Nat) (msgs0 : List ReactAgent.Message),
       (∀ i, i < 5 → StrOps.strContains (replies.getD i "") "Final Answer" = false) →
       5 ≤ f →
       (ReactAgent.runFrom replies f ⟨msgs0, 0⟩).crashed = false →
       (ReactAgent.runFrom replies f ⟨msgs0, 0⟩).thinking = 5 ∧
       (ReactAgent.runFrom replies f ⟨msgs0, 0⟩).final.iterations = 5 ∧
       (ReactAgent.runFrom replies f ⟨msgs0, 0⟩).final.messages.getLast? =
         some ⟨"assistant", replies.getD 4 ""⟩) := by
  constructor
  · intro replies f msgs0
    have h := ReactAgent.runFrom_thinking_le replies f ⟨msgs0, 0⟩
    simpa using h
  · intro replies f msgs0 hm hf hc
    exact ReactAgent.runFrom_forced replies f ⟨msgs0, 0⟩ (by simp)
      (by simpa using hf) (fun i _ h5 => hm i h5) hc

theorem C3_amended_witness :
    (ReactAgent.runFrom repliesNoFinal 10 ⟨[⟨"user", "问题"⟩], 0⟩).thinking ≤ 5 ∧
    ((ReactAgent.runFrom repliesNoFinal 10 ⟨[⟨"user", "问题"⟩], 0⟩).thinking = 5 ∧
     (ReactAgent.runFrom repliesNoFinal 10 ⟨[⟨"user", "问题"⟩], 0⟩).final.iterations = 5 ∧
     (ReactAgent.runFrom repliesNoFinal 10 ⟨[⟨"user", "问题"⟩], 0⟩).final.messages.getLast? =
       some ⟨"assistant", repliesNoFinal.getD 4 ""⟩) :=
  ⟨C3_amended_iteration_cap.1 repliesNoFinal 10 [⟨"user", "问题"⟩],
   C3_amended_iteration_cap.2 repliesNoFinal 10 [⟨"user", "问题"⟩]
     (by decide) (by omega) (by decide)⟩

/-- C3 (counterexample to the claim as stated): the force-stopped run and a
genuinely finished run both end with the scalar field `iterations = 5`, and
the force-stopped result records the forced stop nowhere — the state has no
flag field, and its one scalar does not distinguish the two results; only
the absence of the marker in the last message does. -/
theorem C3_counterexample_no_flag :
    (ReactAgent.runFrom repliesNoFinal 10 demoStart).final.iterations =
      (ReactAgent.runFrom repliesGenuine 10 demoStart).final.iterations ∧
    StrOps.strContains
      (ReactAgent.lastContent (ReactAgent.runFrom repliesNoFinal 10 demoStart).final)
      "Final Answer" = false ∧
    StrOps.strContains
      (ReactAgent.lastContent (ReactAgent.runFrom repliesGenuine 10 demoStart).final)
      "Final Answer" = true ∧
    (ReactAgent.runFrom repliesNoFinal 10 demoStart).thinking = 5 := by
  decide

/-- C4 (counterexample to the claim as stated): on the malformed expression
"2+" the `ReactAgent.py` calculator raises (its bare `eval` has no handler),
instead of returning a failure-description string. -/
theorem C4_counterexample_react_raises :
    Calculators.calculator_tool_react "2+" = Except.error "invalid syntax" := by
  rfl

/-- C4 (amended): the calculators of `ReactAgentV2.py` and
`googleSearch_simple.py` return a failure-description string on every
invalid expression and never raise, while the `ReactAgent.py` calculator
propagates the evaluation error unchanged. -/
theorem C4_amended_calculator_errors (e m : String) (h : PyEval.pyEval e = Except.error m) :
    Calculators.calculator_tool_v2 e = "❌ 计算错误: " ++ m ∧
    Calculators.calculator_gs e = "计算错误: " ++ m ∧
    Calculators.calculator_tool_react e = Except.error m := by
  refine ⟨?_, ?_, ?_⟩
  · rw [Calculators.calculator_tool_v2, h]
  · rw [Calculators.calculator_gs, h]
  · rw [Calculators.calculator_tool_react, h]

theorem C4_amended_witness :
    Calculators.calculator_tool_v2 "2+" = "❌ 计算错误: " ++ "invalid syntax" ∧
    Calculators.calculator_gs "2+" = "计算错误: " ++ "invalid syntax" ∧
    Calculators.calculator_tool_react "2+" = Except.error "invalid syntax" :=
  C4_amended_calculator_errors "2+" "invalid syntax" rfl

/-- C5: when every incoming task result is failed, the aggregator returns
the `AllFailed` sentinel record (duration 0, success false) and the call
count of the reasoning capability is 0 — synthesis is never attempted, for
any `llm` whatsoever. -/
theorem C5_all_failed (name : String) (llm : String → Except String String)
    (dur : Nat) (results : List MultiAgent.TaskResult)
    (h : ∀ r ∈ results, r.success = false) :
    MultiAgent.SummarizerAgent_ainvoke name llm dur results =
      (MultiAgent.allFailedResult name, 0) := by
  have hf : results.filter (fun r => r.success) = [] := by
    rw [List.filter_eq_nil_iff]
    intro a ha
    simp [h a ha]
  simp [MultiAgent.SummarizerAgent_ainvoke, hf]

theorem C5_witness :
    MultiAgent.SummarizerAgent_ainvoke "总结专家" (fun _ => Except.ok "报告")
      7 [⟨"搜索专家-1", "查新闻", "任务执行失败: 超时", 3, false⟩,
         ⟨"数据分析师", "分析", "异常: boom", 0, false⟩] =
      (MultiAgent.allFailedResult "总结专家", 0) :=
  C5_all_failed "总结专家" (fun _ => Except.ok "报告") 7
    [⟨"搜索专家-1", "查新闻", "任务执行失败: 超时", 3, false⟩,
     ⟨"数据分析师", "分析", "异常: boom", 0, false⟩] (by decide)

/-- C6: a task's own failure becomes a `success = false` record whose
payload describes the error — at the agent layer (`ainvoke` catches the
executor exception) and at the join layer (a raised coroutine exception
becomes the indexed failure record); the exception reaches neither caller,
and every sibling position still carries the converted result of its own
task. -/
theorem C6_failure_isolation :
    (∀ (name task : String) (dur : Nat) (m : String),
       MultiAgent.ResearchAgent_ainvoke name task dur (Except.error m) =
         ⟨name, task, "任务执行失败: " ++ m, dur, false⟩) ∧
    (∀ (outcomes : List (Except String MultiAgent.TaskResult)) (order : List Nat),
       (∀ i, i < outcomes.length → i ∈ order) →
       ∀ i m, outcomes[i]? = some (Except.error m) →
         (MultiAgent.research outcomes order)[i]? = some (MultiAgent.failRecord i m) ∧
         (MultiAgent.research outcomes order).length = outcomes.length ∧
         ∀ j, j ≠ i →
           (MultiAgent.research outcomes order)[j]? =
             (outcomes[j]?).map (MultiAgent.convertOutcome j)) := by
  constructor
  · intro name task dur m
    rfl
  · intro outcomes order h i m hfail
    have heq : MultiAgent.research outcomes order = MultiAgent.processResults outcomes := by
      rw [MultiAgent.research, MultiAgent.gatherJoin_eq outcomes order h]
    refine ⟨?_, ?_, ?_⟩
    · rw [heq, MultiAgent.processResults_getElem, hfail]
      rfl
    · rw [heq]
      exact MultiAgent.processResults_length outcomes
    · intro j _
      rw [heq]
      exact MultiAgent.processResults_getElem outcomes j

theorem C6_witness :
    MultiAgent.ResearchAgent_ainvoke "搜索专家-2" "查技术细节" 4 (Except.error "连接失败") =
      ⟨"搜索专家-2", "查技术细节", "任务执行失败: 连接失败", 4, false⟩ ∧
    (MultiAgent.research outcomesDemo [1, 2, 0])[1]? =
      some (MultiAgent.failRecord 1 "TimeoutError") ∧
    (MultiAgent.research outcomesDemo [1, 2, 0])[2]? =
      (outcomesDemo[2]?).map (MultiAgent.convertOutcome 2) :=
  ⟨C6_failure_isolation.1 "搜索专家-2" "查技术细节" 4 "连接失败",
   (C6_failure_isolation.2 outcomesDemo [1, 2, 0] (by decide) 1 "TimeoutError" (by decide)).1,
   (C6_failure_isolation.2 outcomesDemo [1, 2, 0] (by decide) 1 "TimeoutError"
     (by decide)).2.2 2 (by decide)⟩

/-- C7: if the assistant reply routed to the tool node names neither of the
two registered tools, `tool_node` returns (it does not raise) the
unrecognized-tool observation patch, and the run continues into another
Thinking step via the fixed `tools → agent` edge, with the crash flag
untouched. -/
theorem C7_unknown_tool :
    ∀ (replies : List String) (f : Nat) (s : ReactAgent.ReActState),
      ReactAgent.should_continue (ReactAgent.agentStep replies s) = "continue" →
      StrOps.strContains (ReactAgent.lastContent (ReactAgent.agentStep replies s))
        "Action: Search" = false →
      StrOps.strContains (ReactAgent.lastContent (ReactAgent.agentStep replies s))
        "Action: Calculator" = false →
      ReactAgent.tool_node (ReactAgent.agentStep replies s) =
        Except.ok ⟨[⟨"tool", "Observation: 无法识别的工具"⟩], none⟩ ∧
      ReactAgent.runFrom replies (f + 1) s =
        ⟨(ReactAgent.runFrom replies f (ReactAgent.applyPatch (ReactAgent.agentStep replies s)
            ⟨[⟨"tool", "Observation: 无法识别的工具"⟩], none⟩)).final,
         (ReactAgent.runFrom replies f (ReactAgent.applyPatch (ReactAgent.agentStep replies s)
            ⟨[⟨"tool", "Observation: 无法识别的工具"⟩], none⟩)).thinking + 1,
         (ReactAgent.runFrom replies f (ReactAgent.applyPatch (ReactAgent.agentStep replies s)
            ⟨[⟨"tool", "Observation: 无法识别的工具"⟩], none⟩)).acting + 1,
         (ReactAgent.runFrom replies f (ReactAgent.applyPatch (ReactAgent.agentStep replies s)
            ⟨[⟨"tool", "Observation: 无法识别的工具"⟩], none⟩)).crashed⟩ := by
  intro replies f s hcont h1 h2
  have htool : ReactAgent.tool_node (ReactAgent.agentStep replies s) =
      Except.ok ⟨[⟨"tool", "Observation: 无法识别的工具"⟩], none⟩ := by
    simp [ReactAgent.tool_node, h1, h2]
  refine ⟨htool, ?_⟩
  exact ReactAgent.runFrom_succ_ok replies f s _ (by rw [hcont]; decide) htool

theorem C7_witness :
    ReactAgent.tool_node (ReactAgent.agentStep repliesUnknownTool demoStart) =
      Except.ok ⟨[⟨"tool", "Observation: 无法识别的工具"⟩], none⟩ :=
  (C7_unknown_tool repliesUnknownTool 3 demoStart (by decide) (by decide) (by decide)).1

/-- C8: merging a node's patch appends its message entries after every
previously merged message (each earlier index is unchanged), while the
scalar `iterations` field is overwritten when the patch carries it and kept
otherwise; the merge is one total function updating both components in the
same step. -/
theorem C8_patch_merge :
    ∀ (s : ReactAgent.ReActState) (p : ReactAgent.ReActPatch),
      (ReactAgent.applyPatch s p).messages = s.messages ++ p.messages ∧
      (∀ i, i < s.messages.length →
        (ReactAgent.applyPatch s p).messages[i]? = s.messages[i]?) ∧
      (ReactAgent.applyPatch s p).iterations = p.iterations.getD s.iterations := by
  intro s p
  refine ⟨rfl, ?_, rfl⟩
  intro i hi
  simp only [ReactAgent.applyPatch]
  rw [List.getElem?_append, if_pos hi]

theorem C8_witness :
    (ReactAgent.applyPatch stateDemoC8 patchDemoC8).messages =
      stateDemoC8.messages ++ patchDemoC8.messages ∧
    (ReactAgent.applyPatch stateDemoC8 patchDemoC8).messages[1]? = stateDemoC8.messages[1]? ∧
    (ReactAgent.applyPatch stateDemoC8 patchDemoC8).iterations =
      patchDemoC8.iterations.getD stateDemoC8.iterations :=
  ⟨(C8_patch_merge stateDemoC8 patchDemoC8).1,
   (C8_patch_merge stateDemoC8 patchDemoC8).2.1 1 (by decide),
   (C8_patch_merge stateDemoC8 patchDemoC8).2.2⟩

/-- C9: with Scenario B's script the loop does exactly 2 Thinking steps and
1 Acting step, does not crash, and the Acting step appends the observation
message recording the calculator result 14. -/
theorem C9_scenarioB :
    (ReactAgent.runFrom repliesScenarioB 10 demoStart).thinking = 2 ∧
    (ReactAgent.runFrom repliesScenarioB 10 demoStart).acting = 1 ∧
    (ReactAgent.runFrom repliesScenarioB 10 demoStart).crashed = false ∧
    (ReactAgent.runFrom repliesScenarioB 10 demoStart).final.messages =
      [⟨"user", "问题"⟩,
       ⟨"assistant", "Thought: 需要计算\nAction: Calculator\nAction Input: 2**2+10"⟩,
       ⟨"tool", "Observation: 14"⟩,
       ⟨"assistant", "Final Answer: 14"⟩] := by
  decide

/-- C10: whenever the last message contains "Final Answer", the router
returns "end" — for every state, hence regardless of the iteration counter
and of any tool directive also present — and the run then stops immediately
after the agent node with zero Acting steps. -/
theorem C10_final_answer_precedence :
    (∀ s : ReactAgent.ReActState,
       StrOps.strContains (ReactAgent.lastContent s) "Final Answer" = true →
       ReactAgent.should_continue s = "end") ∧
    (∀ (replies : List String) (f : Nat) (s : ReactAgent.ReActState),
       StrOps.strContains (ReactAgent.scriptReply replies s) "Final Answer" = true →
       ReactAgent.runFrom replies (f + 1) s =
         ⟨ReactAgent.agentStep replies s, 1, 0, false⟩) := by
  constructor
  · exact ReactAgent.should_continue_of_marker
  · intro replies f s h
    apply ReactAgent.runFrom_succ_end
    apply ReactAgent.should_continue_of_marker
    rw [ReactAgent.agentStep_lastContent]
    exact h

theorem C10_witness :
    ReactAgent.should_continue stateC10 = "end" ∧
    ReactAgent.runFrom ["Final Answer: 好的\nAction: Search\nAction Input: x"] (0 + 1) demoStart =
      ⟨ReactAgent.agentStep ["Final Answer: 好的\nAction: Search\nAction Input: x"] demoStart,
       1, 0, false⟩ :=
  ⟨C10_final_answer_precedence.1 stateC10 (by decide),
   C10_final_answer_precedence.2 ["Final Answer: 好的\nAction: Search\nAction Input: x"] 0
     demoStart (by decide)⟩
